import Mathlib

/-!
Verification of the nutrition / diet-plan core of the CIT-28 capstone
application (a TypeScript web app).  The TypeScript sources are shallowly
embedded: JavaScript numbers are modelled as exact rationals (`ℚ`),
`Math.round` as Mathlib `round` (both round halves up), non-finite results
of division by zero as an explicit `JsNum` tag, optional fields as
`Option`, and impure inputs (`Date.now()`, today's date) as explicit
parameters.  String-typed enum fields (`gender`, `activityLevel`,
`primary` goal, `dietType`) are kept as `String`, matching the
string-comparison branches of the source.
-/

/-- JavaScript number outcome of an arithmetic expression that can produce
non-finite values: `x / 0` is `Infinity`, `-x / 0` is `-Infinity`, and
`0 / 0` is `NaN`; finite values are exact rationals. -/
inductive JsNum where
  | fin (q : ℚ)
  | posInf
  | negInf
  | nan
deriving DecidableEq, Repr

/-- JavaScript division `a / b` (numerator and denominator finite). -/
def jsDiv (a b : ℚ) : JsNum :=
  if b = 0 then
    if a = 0 then .nan else if 0 < a then .posInf else .negInf
  else .fin (a / b)

/-- Multiplication of a possibly non-finite value by a positive finite
constant (`Infinity * 100 = Infinity`, `NaN * 100 = NaN`). -/
def JsNum.mulPos (x : JsNum) (c : ℚ) : JsNum :=
  match x with
  | .fin q => .fin (q * c)
  | .posInf => .posInf
  | .negInf => .negInf
  | .nan => .nan

/-- `Math.round` on a possibly non-finite value: `Math.round(Infinity)`
is `Infinity` and `Math.round(NaN)` is `NaN`. -/
def JsNum.jsRound : JsNum → JsNum
  | .fin q => .fin (round q : ℤ)
  | x => x

/-- JavaScript `x < c` for a possibly non-finite `x` (false for `NaN`). -/
def JsNum.ltNum (x : JsNum) (c : ℚ) : Bool :=
  match x with
  | .fin q => q < c
  | .posInf => false
  | .negInf => true
  | .nan => false

/-- JavaScript `x > c` for a possibly non-finite `x` (false for `NaN`). -/
def JsNum.gtNum (x : JsNum) (c : ℚ) : Bool :=
  match x with
  | .fin q => q > c
  | .posInf => true
  | .negInf => false
  | .nan => false

/-- JS `opt || 0` on an optional numeric field: absent values count as 0.
(On a required rational field `x || 0` is the identity, since `0 || 0 = 0`.) -/
def oget (o : Option ℚ) : ℚ := o.getD 0

/-- Nested optional vitamin map of `NutritionData`
(src/services/nutritionTrackingService.ts). -/
structure Vitamins where
  vitaminA : Option ℚ := none
  vitaminC : Option ℚ := none
  vitaminD : Option ℚ := none
  vitaminE : Option ℚ := none
  vitaminK : Option ℚ := none
  thiamin : Option ℚ := none
  riboflavin : Option ℚ := none
  niacin : Option ℚ := none
  vitaminB6 : Option ℚ := none
  folate : Option ℚ := none
  vitaminB12 : Option ℚ := none
deriving DecidableEq, Repr

/-- Nested optional mineral map of `NutritionData`. -/
structure Minerals where
  calcium : Option ℚ := none
  iron : Option ℚ := none
  magnesium : Option ℚ := none
  phosphorus : Option ℚ := none
  potassium : Option ℚ := none
  zinc : Option ℚ := none
  copper : Option ℚ := none
  manganese : Option ℚ := none
  selenium : Option ℚ := none
deriving DecidableEq, Repr

/-- `NutritionData` (src/services/nutritionTrackingService.ts): calories,
protein, carbs, fat, fiber are required; the rest are optional. -/
structure NutritionData where
  calories : ℚ
  protein : ℚ
  carbs : ℚ
  fat : ℚ
  fiber : ℚ
  sugar : Option ℚ := none
  sodium : Option ℚ := none
  cholesterol : Option ℚ := none
  vitamins : Option Vitamins := none
  minerals : Option Minerals := none
deriving DecidableEq, Repr

/-- JS `data.vitamins?.x || 0`: optional chaining through the optional
map followed by default-zero. -/
def vget (v : Option Vitamins) (f : Vitamins → Option ℚ) : ℚ :=
  oget (v.bind f)

/-- JS `data.minerals?.x || 0`. -/
def mget (m : Option Minerals) (f : Minerals → Option ℚ) : ℚ :=
  oget (m.bind f)

/-- `Ingredient` (src/types). -/
structure Ingredient where
  id : String
  name : String
  amount : ℚ
  unit : String
  calories : ℚ
  optional : Option Bool := none
deriving DecidableEq, Repr

/-- The required five-field `nutrition` record of a `Meal` (src/types). -/
structure MealNutrition where
  calories : ℚ
  protein : ℚ
  carbs : ℚ
  fat : ℚ
  fiber : ℚ
deriving DecidableEq, Repr

/-- `Meal` (src/types). -/
structure Meal where
  id : String
  name : String
  description : String
  ingredients : List Ingredient
  instructions : List String
  nutrition : MealNutrition
  prepTime : ℚ
  cookTime : ℚ
  servings : ℚ
  completed : Bool
  rating : Option ℚ := none
  notes : Option String := none
  modifications : Option (List String) := none
deriving DecidableEq, Repr

/-- The four meal slots of a `DayMeal` (src/types). -/
structure MealSlots where
  breakfast : Meal
  lunch : Meal
  dinner : Meal
  snacks : List Meal
deriving DecidableEq, Repr

/-- `DayMeal` (src/types).  The calendar date (an ISO date string in the
source) is modelled as a natural number of days. -/
structure DayMeal where
  day : ℕ
  date : ℕ
  meals : MealSlots
  totalCalories : ℚ
  completed : Bool
  notes : Option String := none
deriving DecidableEq, Repr

/-- `DietPlan.progress` (src/types). -/
structure PlanProgress where
  completedDays : ℕ
  totalDays : ℕ
  adherenceRate : ℤ
deriving DecidableEq, Repr

/-- `DietPlan.macros` (src/types). -/
structure PlanMacros where
  protein : ℚ
  carbs : ℚ
  fat : ℚ
deriving DecidableEq, Repr

/-- `DietPlan` (src/types).  Timestamps (`createdAt`/`updatedAt`, produced
by `new Date()` in the source) are modelled as abstract naturals. -/
structure DietPlan where
  id : String
  userId : String
  name : String
  description : String
  duration : ℕ
  dailyCalories : ℚ
  macros : PlanMacros
  meals : List DayMeal
  createdAt : ℕ
  updatedAt : ℕ
  isActive : Bool
  progress : PlanProgress
deriving DecidableEq, Repr

/-- `UserProfile.personalDetails` (src/types).  `gender` and
`activityLevel` are string enums in the source and stay strings here. -/
structure PersonalDetails where
  age : ℚ
  gender : String
  weight : ℚ
  height : ℚ
  activityLevel : String
deriving DecidableEq, Repr

/-- `UserProfile.healthGoals` (src/types): the goal field is named
`primary`. -/
structure HealthGoals where
  primary : String
  targetWeight : Option ℚ := none
  timeframe : Option String := none
deriving DecidableEq, Repr

/-- `UserProfile.dietaryRestrictions` (src/types). -/
structure DietaryRestrictions where
  allergies : List String := []
  intolerances : List String := []
  dietType : String
  restrictions : List String := []
deriving DecidableEq, Repr

/-- `UserProfile.preferences.mealTimings` (src/types). -/
structure MealTimings where
  breakfast : String := "08:00"
  lunch : String := "13:00"
  dinner : String := "19:00"
  snacks : List String := []
deriving DecidableEq, Repr

/-- `UserProfile.preferences` (src/types). -/
structure Preferences where
  cuisines : List String := []
  mealTimings : MealTimings := {}
  budgetRange : String := "medium"
deriving DecidableEq, Repr

/-- `UserProfile` (src/types). -/
structure UserProfile where
  id : String
  name : String
  email : String
  phoneNumber : String
  personalDetails : PersonalDetails
  healthGoals : HealthGoals
  dietaryRestrictions : DietaryRestrictions
  preferences : Preferences := {}
  medicalConditions : List String := []
  sportActivities : List String := []
  planDuration : ℕ
  planDurationType : String := "days"
  createdAt : String := ""
  updatedAt : String := ""
deriving DecidableEq, Repr

/-! ## NutritionTrackingService (src/services/nutritionTrackingService.ts) -/

/-- `calculateMealNutrition`: a `Meal` carries only the five required
nutrition fields, so every optional field of the result is `x || 0` on an
absent property, i.e. 0. -/
def calculateMealNutrition (meal : Meal) : NutritionData where
  calories := meal.nutrition.calories
  protein := meal.nutrition.protein
  carbs := meal.nutrition.carbs
  fat := meal.nutrition.fat
  fiber := meal.nutrition.fiber
  sugar := some 0
  sodium := some 0
  cholesterol := some 0
  vitamins := some {
    vitaminA := some 0, vitaminC := some 0, vitaminD := some 0,
    vitaminE := some 0, vitaminK := some 0, thiamin := some 0,
    riboflavin := some 0, niacin := some 0, vitaminB6 := some 0,
    folate := some 0, vitaminB12 := some 0 }
  minerals := some {
    calcium := some 0, iron := some 0, magnesium := some 0,
    phosphorus := some 0, potassium := some 0, zinc := some 0,
    copper := some 0, manganese := some 0, selenium := some 0 }

/-- `addNutritionData`: field-wise addition; required numeric fields are
added directly (`x || 0` is the identity on them), optional fields and the
nested maps through default-zero chaining.  Every field of the result is
present. -/
def addNutritionData (data1 data2 : NutritionData) : NutritionData where
  calories := data1.calories + data2.calories
  protein := data1.protein + data2.protein
  carbs := data1.carbs + data2.carbs
  fat := data1.fat + data2.fat
  fiber := data1.fiber + data2.fiber
  sugar := some (oget data1.sugar + oget data2.sugar)
  sodium := some (oget data1.sodium + oget data2.sodium)
  cholesterol := some (oget data1.cholesterol + oget data2.cholesterol)
  vitamins := some {
    vitaminA := vget data1.vitamins (·.vitaminA) + vget data2.vitamins (·.vitaminA)
    vitaminC := vget data1.vitamins (·.vitaminC) + vget data2.vitamins (·.vitaminC)
    vitaminD := vget data1.vitamins (·.vitaminD) + vget data2.vitamins (·.vitaminD)
    vitaminE := vget data1.vitamins (·.vitaminE) + vget data2.vitamins (·.vitaminE)
    vitaminK := vget data1.vitamins (·.vitaminK) + vget data2.vitamins (·.vitaminK)
    thiamin := vget data1.vitamins (·.thiamin) + vget data2.vitamins (·.thiamin)
    riboflavin := vget data1.vitamins (·.riboflavin) + vget data2.vitamins (·.riboflavin)
    niacin := vget data1.vitamins (·.niacin) + vget data2.vitamins (·.niacin)
    vitaminB6 := vget data1.vitamins (·.vitaminB6) + vget data2.vitamins (·.vitaminB6)
    folate := vget data1.vitamins (·.folate) + vget data2.vitamins (·.folate)
    vitaminB12 := vget data1.vitamins (·.vitaminB12) + vget data2.vitamins (·.vitaminB12) }
  minerals := some {
    calcium := mget data1.minerals (·.calcium) + mget data2.minerals (·.calcium)
    iron := mget data1.minerals (·.iron) + mget data2.minerals (·.iron)
    magnesium := mget data1.minerals (·.magnesium) + mget data2.minerals (·.magnesium)
    phosphorus := mget data1.minerals (·.phosphorus) + mget data2.minerals (·.phosphorus)
    potassium := mget data1.minerals (·.potassium) + mget data2.minerals (·.potassium)
    zinc := mget data1.minerals (·.zinc) + mget data2.minerals (·.zinc)
    copper := mget data1.minerals (·.copper) + mget data2.minerals (·.copper)
    manganese := mget data1.minerals (·.manganese) + mget data2.minerals (·.manganese)
    selenium := mget data1.minerals (·.selenium) + mget data2.minerals (·.selenium) }

/-- `createEmptyNutritionData`. -/
def createEmptyNutritionData : NutritionData where
  calories := 0
  protein := 0
  carbs := 0
  fat := 0
  fiber := 0
  sugar := some 0
  sodium := some 0
  cholesterol := some 0
  vitamins := some {
    vitaminA := some 0, vitaminC := some 0, vitaminD := some 0,
    vitaminE := some 0, vitaminK := some 0, thiamin := some 0,
    riboflavin := some 0, niacin := some 0, vitaminB6 := some 0,
    folate := some 0, vitaminB12 := some 0 }
  minerals := some {
    calcium := some 0, iron := some 0, magnesium := some 0,
    phosphorus := some 0, potassium := some 0, zinc := some 0,
    copper := some 0, manganese := some 0, selenium := some 0 }

/-- `calculateDayNutrition`: breakfast + lunch + dinner, plus a
fold of `addNutritionData` over the snacks started from the empty record. -/
def calculateDayNutrition (dayMeal : DayMeal) : NutritionData :=
  let breakfast := calculateMealNutrition dayMeal.meals.breakfast
  let lunch := calculateMealNutrition dayMeal.meals.lunch
  let dinner := calculateMealNutrition dayMeal.meals.dinner
  let snacksNutrition := dayMeal.meals.snacks.foldl
    (fun acc snack => addNutritionData acc (calculateMealNutrition snack))
    createEmptyNutritionData
  let mainMealsNutrition := addNutritionData (addNutritionData breakfast lunch) dinner
  addNutritionData mainMealsNutrition snacksNutrition

/-- `recalculateDayMealTotals`: replaces `totalCalories` with the rounded
day-nutrition calorie sum. -/
def recalculateDayMealTotals (dayMeal : DayMeal) : DayMeal :=
  { dayMeal with totalCalories := ((round (calculateDayNutrition dayMeal).calories : ℤ) : ℚ) }

/-- The activity factor of `calculateDailyNutritionGoals`
(src/services/nutritionTrackingService.ts:186-191): initialised to the
sedentary factor 1.2 and updated by an `if`/`else if` chain, so every
unrecognised level keeps the 1.2 default. -/
def trackingActivityFactor (activityLevel : String) : ℚ :=
  if activityLevel = "light" then 1.375
  else if activityLevel = "moderate" then 1.55
  else if activityLevel = "active" then 1.725
  else if activityLevel = "very_active" then 1.9
  else 1.2

/-- `const { primaryGoal } = userProfile.healthGoals;`
(src/services/nutritionTrackingService.ts:176).  The declared
`UserProfile` type names this field `primary`, not `primaryGoal`, and
every object reaching this service is built with `primary`; the
destructuring therefore yields `undefined` at run time. -/
def trackingPrimaryGoal (_userProfile : UserProfile) : Option String := none

/-- `calculateDailyNutritionGoals`
(src/services/nutritionTrackingService.ts:174-259).  The two goal
branches compare the `undefined` value `trackingPrimaryGoal` against
string literals and never fire. -/
def calculateDailyNutritionGoals (userProfile : UserProfile) : NutritionData :=
  let weight := userProfile.personalDetails.weight
  let height := userProfile.personalDetails.height
  let age := userProfile.personalDetails.age
  let gender := userProfile.personalDetails.gender
  let activityLevel := userProfile.personalDetails.activityLevel
  let primaryGoal := trackingPrimaryGoal userProfile
  let bmr : ℚ :=
    if gender = "male" then 10 * weight + 6.25 * height - 5 * age + 5
    else 10 * weight + 6.25 * height - 5 * age - 161
  let activityFactor := trackingActivityFactor activityLevel
  let tdee := bmr * activityFactor
  let tdee :=
    if primaryGoal = some "weight_loss" then tdee * 0.85
    else if primaryGoal = some "muscle_gain" then tdee * 1.15
    else tdee
  let dietType := userProfile.dietaryRestrictions.dietType
  let proteinRatio : ℚ :=
    if dietType = "keto" then 0.25 else if dietType = "vegan" then 0.2
    else if dietType = "paleo" then 0.35 else 0.3
  let fatRatio : ℚ :=
    if dietType = "keto" then 0.7 else if dietType = "vegan" then 0.3
    else if dietType = "paleo" then 0.35 else 0.3
  let carbsRatio : ℚ :=
    if dietType = "keto" then 0.05 else if dietType = "vegan" then 0.5
    else if dietType = "paleo" then 0.3 else 0.4
  let proteinCalories := tdee * proteinRatio
  let fatCalories := tdee * fatRatio
  let carbsCalories := tdee * carbsRatio
  { calories := ((round tdee : ℤ) : ℚ)
    protein := ((round (proteinCalories / 4) : ℤ) : ℚ)
    carbs := ((round (carbsCalories / 4) : ℤ) : ℚ)
    fat := ((round (fatCalories / 9) : ℤ) : ℚ)
    fiber := ((round (age * 0.5 + 10) : ℤ) : ℚ)
    sugar := some ((round (tdee * 0.1 / 4) : ℤ) : ℚ)
    sodium := some 2300
    cholesterol := some (if gender = "male" then 300 else 200)
    vitamins := some {
      vitaminA := some 900, vitaminC := some 90, vitaminD := some 20,
      vitaminE := some 15, vitaminK := some 120, thiamin := some 1.2,
      riboflavin := some 1.3, niacin := some 16, vitaminB6 := some 1.3,
      folate := some 400, vitaminB12 := some 2.4 }
    minerals := some {
      calcium := some 1000, iron := some (if gender = "male" then 8 else 18),
      magnesium := some 420, phosphorus := some 700, potassium := some 3500,
      zinc := some 11, copper := some 0.9, manganese := some 2.3,
      selenium := some 55 } }

/-- The five percentage-of-target values of a `NutritionProgress`, each
the outcome of `Math.round((current / target) * 100)` and therefore
possibly non-finite when the target is 0. -/
structure JsPercentage where
  calories : JsNum
  protein : JsNum
  carbs : JsNum
  fat : JsNum
  fiber : JsNum
deriving DecidableEq, Repr

/-- `NutritionProgress` as produced by `calculateNutritionProgress`. -/
structure NutritionProgress where
  current : NutritionData
  target : NutritionData
  percentage : JsPercentage
  status : String
deriving DecidableEq, Repr

/-- One percentage entry: `Math.round((current / target) * 100)`. -/
def pctOf (current target : ℚ) : JsNum :=
  ((jsDiv current target).mulPos 100).jsRound

/-- `calculateNutritionProgress`
(src/services/nutritionTrackingService.ts:262-300): no guard against a
zero target, so a zero target field produces a non-finite percentage. -/
def calculateNutritionProgress (current target : NutritionData) : NutritionProgress :=
  let percentage : JsPercentage := {
    calories := pctOf current.calories target.calories
    protein := pctOf current.protein target.protein
    carbs := pctOf current.carbs target.carbs
    fat := pctOf current.fat target.fat
    fiber := pctOf current.fiber target.fiber }
  let status : String :=
    if percentage.calories.ltNum 80 || percentage.protein.ltNum 80 ||
       percentage.carbs.ltNum 80 || percentage.fat.ltNum 80 then "deficit"
    else if percentage.calories.gtNum 120 || percentage.protein.gtNum 120 ||
       percentage.carbs.gtNum 120 || percentage.fat.gtNum 120 then "excess"
    else "optimal"
  { current := current, target := target, percentage := percentage, status := status }

/-- A finite percentage record, the view of `NutritionProgress.percentage`
consumed by `calculateNutritionScore` (all five values ordinary numbers). -/
structure Percentage where
  calories : ℚ
  protein : ℚ
  carbs : ℚ
  fat : ℚ
  fiber : ℚ
deriving DecidableEq, Repr

/-- The calorie/macro sub-score of `calculateNutritionScore`: 100 inside
[90,110], 80 inside [80,120], otherwise `max(0, 100 - |pct - 100|)`. -/
def macroSubScore (pct : ℚ) : ℚ :=
  if 90 ≤ pct ∧ pct ≤ 110 then 100
  else if 80 ≤ pct ∧ pct ≤ 120 then 80
  else max 0 (100 - |pct - 100|)

/-- `calculateNutritionScore`
(src/services/nutritionTrackingService.ts:362-407): weighted composite of
the sub-scores; the fiber sub-score is 100 when the percentage is at
least 100 and `pct * 1.25` (uncapped) otherwise. -/
def calculateNutritionScore (percentage : Percentage) : ℤ :=
  let calorieScore := macroSubScore percentage.calories
  let proteinScore := macroSubScore percentage.protein
  let carbsScore := macroSubScore percentage.carbs
  let fatScore := macroSubScore percentage.fat
  let fiberScore := if 100 ≤ percentage.fiber then (100 : ℚ) else percentage.fiber * 1.25
  round (calorieScore * 0.4 + proteinScore * 0.2 + carbsScore * 0.2 +
    fatScore * 0.1 + fiberScore * 0.1)

/-! ## AIService (src/services/smsService.ts, second module in the file) -/

/-- `NutritionTargets` as returned by `AIService.calculateNutritionTargets`. -/
structure NutritionTargets where
  dailyCalories : ℚ
  protein : ℚ
  carbs : ℚ
  fat : ℚ
deriving DecidableEq, Repr

/-- The `activityMultipliers` lookup of `calculateNutritionTargets`
(src/services/smsService.ts:146-154): object lookup with `|| 1.55`, so an
unknown level falls back to the moderate multiplier. -/
def aiActivityMultiplier (activityLevel : String) : ℚ :=
  if activityLevel = "sedentary" then 1.2
  else if activityLevel = "light" then 1.375
  else if activityLevel = "moderate" then 1.55
  else if activityLevel = "active" then 1.725
  else if activityLevel = "very_active" then 1.9
  else 1.55

/-- `AIService.calculateNutritionTargets`
(src/services/smsService.ts:134-202): Mifflin-St Jeor BMR, multiplier
TDEE, absolute goal adjustment (−500 / +300), macro split by diet type. -/
def calculateNutritionTargets (profile : UserProfile) : NutritionTargets :=
  let weight := profile.personalDetails.weight
  let height := profile.personalDetails.height
  let age := profile.personalDetails.age
  let gender := profile.personalDetails.gender
  let bmr : ℚ :=
    if gender = "male" then 10 * weight + 6.25 * height - 5 * age + 5
    else 10 * weight + 6.25 * height - 5 * age - 161
  let tdee := bmr * aiActivityMultiplier profile.personalDetails.activityLevel
  let primary := profile.healthGoals.primary
  let dailyCalories : ℚ :=
    if primary = "weight_loss" then tdee - 500
    else if primary = "muscle_gain" then tdee + 300
    else tdee
  let dietType := profile.dietaryRestrictions.dietType
  let proteinRatio : ℚ :=
    if dietType = "keto" then 0.25 else if dietType = "paleo" then 0.30
    else if dietType = "vegan" ∨ dietType = "vegetarian" then 0.20 else 0.25
  let fatRatio : ℚ :=
    if dietType = "keto" then 0.70 else if dietType = "paleo" then 0.35
    else if dietType = "vegan" ∨ dietType = "vegetarian" then 0.25 else 0.30
  let carbRatio : ℚ :=
    if dietType = "keto" then 0.05 else if dietType = "paleo" then 0.35
    else if dietType = "vegan" ∨ dietType = "vegetarian" then 0.55 else 0.45
  { dailyCalories := ((round dailyCalories : ℤ) : ℚ)
    protein := ((round (dailyCalories * proteinRatio / 4) : ℤ) : ℚ)
    carbs := ((round (dailyCalories * carbRatio / 4) : ℤ) : ℚ)
    fat := ((round (dailyCalories * fatRatio / 9) : ℤ) : ℚ) }

/-- A meal template entry of `getMealTemplates` (src/services/smsService.ts). -/
structure MealTemplate where
  name : String
  description : String
  ingredients : List Ingredient
  instructions : List String
  prepTime : ℚ
  cookTime : ℚ
deriving DecidableEq, Repr

/-- Shorthand for one template row: every source row has exactly one
ingredient with id "1". -/
def tRow (name description iname : String) (amount : ℚ) (unit : String)
    (ical : ℚ) (instruction : String) (prepTime cookTime : ℚ) : MealTemplate :=
  { name := name, description := description,
    ingredients := [{ id := "1", name := iname, amount := amount, unit := unit, calories := ical }],
    instructions := [instruction], prepTime := prepTime, cookTime := cookTime }

/-- Vegetarian breakfast templates (src/services/smsService.ts:360-371). -/
def vegBreakfast : List MealTemplate := [
  tRow "Overnight Oats with Berries" "Creamy oats with berries" "Oats" 50 "g" 190 "Mix and refrigerate" 5 0,
  tRow "Avocado Toast" "Whole grain toast with avocado" "Bread" 2 "slices" 160 "Toast and spread" 5 3,
  tRow "Greek Yogurt Parfait" "Layered yogurt with granola" "Yogurt" 200 "g" 150 "Layer ingredients" 5 0,
  tRow "Banana Pancakes" "Fluffy pancakes with banana" "Flour" 60 "g" 220 "Mix and cook" 10 10,
  tRow "Smoothie Bowl" "Thick smoothie with toppings" "Banana" 1 "medium" 105 "Blend and top" 7 0,
  tRow "Chia Pudding" "Chia seeds in almond milk" "Chia seeds" 30 "g" 145 "Mix and refrigerate" 5 0,
  tRow "Veggie Omelet" "Eggs with mixed vegetables" "Eggs" 2 "large" 140 "Whisk and cook" 5 8,
  tRow "Peanut Butter Toast" "Whole wheat with PB and banana" "Bread" 2 "slices" 160 "Toast and spread" 3 2,
  tRow "Breakfast Burrito" "Scrambled eggs in tortilla" "Tortilla" 1 "large" 120 "Cook and wrap" 10 8,
  tRow "Fruit Salad Bowl" "Mixed fresh fruits with nuts" "Mixed fruits" 200 "g" 120 "Chop and mix" 8 0]

/-- Vegetarian lunch templates (src/services/smsService.ts:372-383). -/
def vegLunch : List MealTemplate := [
  tRow "Quinoa Buddha Bowl" "Quinoa with roasted vegetables" "Quinoa" 80 "g" 290 "Cook and assemble" 10 25,
  tRow "Lentil Curry" "Spiced lentils with rice" "Lentils" 100 "g" 350 "Cook with spices" 15 30,
  tRow "Caprese Sandwich" "Mozzarella, tomato, basil" "Bread" 2 "slices" 160 "Layer and serve" 5 0,
  tRow "Chickpea Salad" "Mediterranean chickpea bowl" "Chickpeas" 150 "g" 180 "Mix ingredients" 10 0,
  tRow "Veggie Wrap" "Hummus and vegetable wrap" "Tortilla" 1 "large" 120 "Fill and wrap" 8 0,
  tRow "Pasta Primavera" "Whole wheat pasta with veggies" "Pasta" 80 "g" 280 "Cook and toss" 10 15,
  tRow "Black Bean Bowl" "Black beans with rice and salsa" "Black beans" 150 "g" 200 "Heat and combine" 8 10,
  tRow "Falafel Plate" "Baked falafel with tahini" "Chickpeas" 120 "g" 150 "Form and bake" 15 20,
  tRow "Vegetable Soup" "Hearty mixed vegetable soup" "Mixed veggies" 250 "g" 100 "Simmer together" 10 25,
  tRow "Paneer Tikka Bowl" "Grilled paneer with rice" "Paneer" 100 "g" 265 "Marinate and grill" 20 15]

/-- Vegetarian dinner templates (src/services/smsService.ts:384-395). -/
def vegDinner : List MealTemplate := [
  tRow "Stuffed Bell Peppers" "Quinoa-stuffed peppers" "Bell peppers" 2 "large" 60 "Stuff and bake" 20 35,
  tRow "Tofu Stir-fry" "Crispy tofu with vegetables" "Tofu" 120 "g" 180 "Stir-fry together" 15 15,
  tRow "Eggplant Parmesan" "Baked eggplant with cheese" "Eggplant" 200 "g" 50 "Layer and bake" 20 30,
  tRow "Mushroom Risotto" "Creamy arborio rice" "Arborio rice" 80 "g" 280 "Stir continuously" 10 30,
  tRow "Veggie Burger" "Homemade bean burger" "Black beans" 150 "g" 200 "Form and grill" 15 12,
  tRow "Spinach Lasagna" "Layered pasta with spinach" "Lasagna sheets" 100 "g" 350 "Layer and bake" 25 40,
  tRow "Cauliflower Tacos" "Roasted cauliflower in tortillas" "Cauliflower" 200 "g" 50 "Roast and assemble" 10 25,
  tRow "Vegetable Biryani" "Fragrant rice with vegetables" "Basmati rice" 80 "g" 280 "Layer and steam" 20 30,
  tRow "Zucchini Noodles" "Spiralized zucchini with marinara" "Zucchini" 250 "g" 40 "Spiralize and saute" 10 8,
  tRow "Dal Tadka" "Yellow lentils with spices" "Yellow dal" 100 "g" 340 "Cook and temper" 10 25]

/-- Vegetarian snack templates (src/services/smsService.ts:396-402). -/
def vegSnack : List MealTemplate := [
  tRow "Greek Yogurt with Nuts" "Protein-rich snack" "Yogurt" 150 "g" 100 "Mix together" 2 0,
  tRow "Apple with Almond Butter" "Sliced apple with nut butter" "Apple" 1 "medium" 95 "Slice and dip" 3 0,
  tRow "Trail Mix" "Nuts, seeds, and dried fruit" "Mixed nuts" 30 "g" 180 "Mix ingredients" 2 0,
  tRow "Hummus with Veggies" "Chickpea dip with carrots" "Hummus" 50 "g" 100 "Serve together" 3 0,
  tRow "Protein Smoothie" "Banana and protein powder" "Banana" 1 "medium" 105 "Blend all" 5 0]

/-- Omnivore breakfast templates: the vegetarian pool plus meat entries
(src/services/smsService.ts:406-409). -/
def omniBreakfast : List MealTemplate := vegBreakfast ++ [
  tRow "Scrambled Eggs with Bacon" "Classic breakfast combo" "Eggs" 2 "large" 140 "Cook together" 5 8,
  tRow "Breakfast Sausage Bowl" "Sausage with hash browns" "Sausage" 80 "g" 250 "Cook and serve" 5 12]

/-- Omnivore lunch templates (src/services/smsService.ts:410-415). -/
def omniLunch : List MealTemplate := vegLunch ++ [
  tRow "Grilled Chicken Salad" "Fresh greens with chicken" "Chicken breast" 120 "g" 200 "Grill and toss" 10 15,
  tRow "Turkey Sandwich" "Whole grain with turkey" "Turkey" 100 "g" 120 "Layer and serve" 5 0,
  tRow "Beef Burrito Bowl" "Ground beef with rice" "Ground beef" 100 "g" 250 "Cook and assemble" 10 15,
  tRow "Tuna Salad" "Tuna with mixed greens" "Tuna" 100 "g" 130 "Mix and serve" 8 0]

/-- Omnivore dinner templates (src/services/smsService.ts:416-423). -/
def omniDinner : List MealTemplate := vegDinner ++ [
  tRow "Baked Salmon" "Herb-crusted salmon fillet" "Salmon" 150 "g" 280 "Season and bake" 10 25,
  tRow "Grilled Chicken Breast" "Marinated chicken with veggies" "Chicken" 150 "g" 250 "Marinate and grill" 15 20,
  tRow "Beef Stir-fry" "Lean beef with vegetables" "Beef" 120 "g" 220 "Stir-fry quickly" 10 12,
  tRow "Fish Tacos" "Grilled fish in corn tortillas" "White fish" 120 "g" 140 "Grill and assemble" 10 10,
  tRow "Pork Tenderloin" "Roasted pork with sweet potato" "Pork" 120 "g" 180 "Season and roast" 10 30,
  tRow "Shrimp Pasta" "Garlic shrimp with linguine" "Shrimp" 150 "g" 120 "Saute and toss" 10 15]

/-- Omnivore snack templates (src/services/smsService.ts:424-427). -/
def omniSnack : List MealTemplate := vegSnack ++ [
  tRow "Beef Jerky" "High-protein dried beef" "Beef jerky" 30 "g" 80 "Serve" 1 0,
  tRow "Hard Boiled Eggs" "Protein-packed snack" "Eggs" 2 "large" 140 "Boil and peel" 2 10]

/-- `getMealTemplates(isVegetarian)[mealType] || templates.breakfast`
(src/services/smsService.ts:334-335,358-431): slot lookup in the
vegetarian or omnivore table, defaulting to the breakfast pool for an
unknown slot name. -/
def getMealTemplates (isVegetarian : Bool) (mealType : String) : List MealTemplate :=
  if isVegetarian then
    if mealType = "breakfast" then vegBreakfast
    else if mealType = "lunch" then vegLunch
    else if mealType = "dinner" then vegDinner
    else if mealType = "snack" then vegSnack
    else vegBreakfast
  else
    if mealType = "breakfast" then omniBreakfast
    else if mealType = "lunch" then omniLunch
    else if mealType = "dinner" then omniDinner
    else if mealType = "snack" then omniSnack
    else omniBreakfast

/-- A default template, only used to make the in-range list indexing
`templates[day % templates.length]` total (the pools are never empty). -/
def defaultTemplate : MealTemplate := tRow "" "" "" 0 "" 0 "" 0 0

/-- `AIService.generateMeal` (src/services/smsService.ts:333-356):
round-robin template selection by `day % templates.length` and nutrition
derived from the slot calorie allocation by the fixed intra-meal split
15% protein / 50% carbs / 35% fat (and fiber = 2% of calories);
`Date.now()` in the meal id is the explicit parameter `now`. -/
def generateMeal (mealType : String) (targetCalories : ℚ) (isVegetarian : Bool)
    (day : ℕ) (now : ℕ) : Meal :=
  let templates := getMealTemplates isVegetarian mealType
  let template := templates.getD (day % templates.length) defaultTemplate
  { id := "meal_" ++ mealType ++ "_" ++ toString day ++ "_" ++ toString now
    name := template.name
    description := template.description
    ingredients := template.ingredients
    instructions := template.instructions
    nutrition := {
      calories := ((round targetCalories : ℤ) : ℚ)
      protein := ((round (targetCalories * 0.15 / 4) : ℤ) : ℚ)
      carbs := ((round (targetCalories * 0.50 / 4) : ℤ) : ℚ)
      fat := ((round (targetCalories * 0.35 / 9) : ℤ) : ℚ)
      fiber := ((round (targetCalories * 0.02) : ℤ) : ℚ) }
    prepTime := template.prepTime
    cookTime := template.cookTime
    servings := 1
    completed := false }

/-- `AIService.generateFallbackMeals` (src/services/smsService.ts:306-331):
one `DayMeal` per day 1..planDuration; slot calories are the
25%/35%/30%/10% shares of `targets.dailyCalories`; `totalCalories` is set
directly to `targets.dailyCalories`; the calendar date `today + day - 1`
is modelled with the explicit parameter `today`. -/
def generateFallbackMeals (profile : UserProfile) (targets : NutritionTargets)
    (today now : ℕ) : List DayMeal :=
  let isVegetarian := profile.dietaryRestrictions.dietType = "vegetarian" ||
    profile.dietaryRestrictions.dietType = "vegan"
  (List.range' 1 profile.planDuration).map fun day =>
    { day := day
      date := today + day - 1
      meals := {
        breakfast := generateMeal "breakfast" (targets.dailyCalories * 0.25) isVegetarian day now
        lunch := generateMeal "lunch" (targets.dailyCalories * 0.35) isVegetarian day now
        dinner := generateMeal "dinner" (targets.dailyCalories * 0.30) isVegetarian day now
        snacks := [generateMeal "snack" (targets.dailyCalories * 0.10) isVegetarian day now] }
      totalCalories := targets.dailyCalories
      completed := false }

/-- `AIService.generatePlanName` (src/services/smsService.ts:433-454). -/
def generatePlanName (profile : UserProfile) : String :=
  let primary := profile.healthGoals.primary
  let goalName :=
    if primary = "weight_loss" then "Weight Loss"
    else if primary = "muscle_gain" then "Muscle Building"
    else if primary = "maintenance" then "Maintenance"
    else if primary = "general_health" then "Healthy Living"
    else "Custom"
  let dietType := profile.dietaryRestrictions.dietType
  let dietName :=
    if dietType = "vegetarian" then "Vegetarian"
    else if dietType = "vegan" then "Vegan"
    else if dietType = "pescatarian" then "Pescatarian"
    else if dietType = "keto" then "Ketogenic"
    else if dietType = "paleo" then "Paleo"
    else ""
  if dietName ≠ "" then dietName ++ " " ++ goalName ++ " Plan" else goalName ++ " Plan"

/-- `AIService.generatePlanDescription` (src/services/smsService.ts:456-469). -/
def generatePlanDescription (profile : UserProfile) (calories : ℚ) : String :=
  let goal := profile.healthGoals.primary
  let diet := profile.dietaryRestrictions.dietType
  let description := "A personalized " ++ toString calories ++
    "-calorie daily plan designed for " ++ goal.replace "_" " "
  let description :=
    if diet ≠ "omnivore" then description ++ " following a " ++ diet ++ " diet"
    else description
  description ++ ". Tailored to your preferences, activity level, and dietary restrictions."

/-- `AIService.generateFallbackDietPlan` (src/services/smsService.ts:471-497). -/
def generateFallbackDietPlan (profile : UserProfile) (today now : ℕ) : DietPlan :=
  let targets := calculateNutritionTargets profile
  let meals := generateFallbackMeals profile targets today now
  { id := "plan_" ++ toString now
    userId := profile.id
    name := generatePlanName profile
    description := generatePlanDescription profile targets.dailyCalories
    duration := profile.planDuration
    dailyCalories := targets.dailyCalories
    macros := { protein := targets.protein, carbs := targets.carbs, fat := targets.fat }
    meals := meals
    createdAt := now
    updatedAt := now
    isActive := true
    progress := { completedDays := 0, totalDays := profile.planDuration, adherenceRate := 0 } }

/-- `AIService.generateDietPlan` (src/services/smsService.ts:97-132).
The meal plan comes from `generateMealPlanWithAI`, whose every branch
returns `generateFallbackMeals`: with no API key it falls back directly,
on a fetch error it falls back, and on success `parseAIMealPlan` itself
delegates to the fallback generator — so the deterministic result is
exactly the fallback meal list (and the catch-all fallback plan is
identical in shape). -/
def generateDietPlan (userProfile : UserProfile) (today now : ℕ) : DietPlan :=
  let nutritionTargets := calculateNutritionTargets userProfile
  let mealPlan := generateFallbackMeals userProfile nutritionTargets today now
  { id := "plan_" ++ toString now
    userId := userProfile.id
    name := generatePlanName userProfile
    description := generatePlanDescription userProfile nutritionTargets.dailyCalories
    duration := userProfile.planDuration
    dailyCalories := nutritionTargets.dailyCalories
    macros := { protein := nutritionTargets.protein, carbs := nutritionTargets.carbs,
                fat := nutritionTargets.fat }
    meals := mealPlan
    createdAt := now
    updatedAt := now
    isActive := true
    progress := { completedDays := 0, totalDays := userProfile.planDuration, adherenceRate := 0 } }

/-! ## Dashboard meal completion (src/pages/Dashboard.tsx:75-133) -/

/-- `updatedDayMeal.meals.snacks[snackIndex].completed = true`.  In the
source an out-of-range index would fault; the model leaves the list
unchanged there, and every theorem about snack completion is stated for
in-range indices. -/
def setSnackCompleted (snacks : List Meal) (i : ℕ) : List Meal :=
  match snacks.get? i with
  | some m => snacks.set i { m with completed := true }
  | none => snacks

/-- The slot-marking step of `handleMealComplete`: mark a snack when the
type is `snack` and an index was given, mark breakfast/lunch/dinner for
those types, otherwise change nothing. -/
def markMeal (dayMeal : DayMeal) (mealType : String) (snackIndex : Option ℕ) : DayMeal :=
  if mealType = "snack" ∧ snackIndex ≠ none then
    match snackIndex with
    | some i =>
        { dayMeal with meals := { dayMeal.meals with
            snacks := setSnackCompleted dayMeal.meals.snacks i } }
    | none => dayMeal
  else if mealType = "breakfast" then
    { dayMeal with meals := { dayMeal.meals with
        breakfast := { dayMeal.meals.breakfast with completed := true } } }
  else if mealType = "lunch" then
    { dayMeal with meals := { dayMeal.meals with
        lunch := { dayMeal.meals.lunch with completed := true } } }
  else if mealType = "dinner" then
    { dayMeal with meals := { dayMeal.meals with
        dinner := { dayMeal.meals.dinner with completed := true } } }
  else dayMeal

/-- The `allMealsCompleted` conjunction of `handleMealComplete`
(src/pages/Dashboard.tsx:90-95): AND across breakfast, lunch, dinner and
every snack. -/
def allMealsCompleted (d : DayMeal) : Bool :=
  d.meals.breakfast.completed && d.meals.lunch.completed &&
    d.meals.dinner.completed && d.meals.snacks.all (·.completed)

/-- `handleMealComplete` (src/pages/Dashboard.tsx:75-133) as a pure
function of the active plan, the currently selected day, the selected
date and the slot being marked.  Returns the updated plan and the
recalculated day.  JS would produce `NaN` for the adherence rate of a
zero-duration plan; rational division makes it 0 there, and the theorems
assume a positive duration. -/
def handleMealComplete (activePlan : DietPlan) (currentDayMeal : DayMeal)
    (selectedDate : ℕ) (mealType : String) (snackIndex : Option ℕ) :
    DietPlan × DayMeal :=
  let updatedDayMeal := markMeal currentDayMeal mealType snackIndex
  let recalculatedDayMeal := recalculateDayMealTotals updatedDayMeal
  let recalculatedDayMeal :=
    if allMealsCompleted recalculatedDayMeal then
      { recalculatedDayMeal with completed := true }
    else recalculatedDayMeal
  let updatedMeals := activePlan.meals.map fun meal =>
    if meal.date = selectedDate then recalculatedDayMeal else meal
  let completedDays := (updatedMeals.filter (·.completed)).length
  let adherenceRate := round (((completedDays : ℚ) / (activePlan.duration : ℚ)) * 100)
  ({ activePlan with
      meals := updatedMeals
      progress := { activePlan.progress with
        completedDays := completedDays
        adherenceRate := adherenceRate } },
   recalculatedDayMeal)

/-! ## ProfileService validation (src/unnamed/part_000:512-568) -/

/-- `ProfileError` (src/unnamed/part_000). -/
structure ProfileError where
  message : String
  code : String
  statusCode : ℕ
deriving DecidableEq, Repr

/-- The fields of `Partial<UserProfile>` inspected by
`validateProfileData`; absent fields are `none`. -/
structure PartialProfile where
  name : Option String := none
  email : Option String := none
  personalDetails : Option PersonalDetails := none
  planDuration : Option ℕ := none
deriving DecidableEq, Repr

/-- JS truthiness of an optional number: `undefined` and 0 are falsy. -/
def numTruthy (o : Option ℚ) : Bool :=
  match o with
  | none => false
  | some q => q ≠ 0

/-- JS truthiness of an optional string: `undefined` and the empty string
are falsy. -/
def strTruthy (o : Option String) : Bool :=
  match o with
  | none => false
  | some s => s ≠ ""

/-- The email test `/^[^\s@]+@[^\s@]+\.[^\s@]+$/` of `validateProfileData`:
exactly one `@`; a nonempty whitespace-free part before it; a nonempty
whitespace-free domain containing a dot that is neither its first nor its
last character. -/
def emailRegexTest (s : String) : Bool :=
  match s.splitOn "@" with
  | [lpart, domain] =>
      lpart ≠ "" && (lpart.toList.all fun c => ¬ c.isWhitespace) &&
      (domain.toList.all fun c => ¬ c.isWhitespace) &&
      (let ds := domain.splitOn "."
       decide (2 ≤ ds.length) && ds.head? ≠ some "" && ds.getLast? ≠ some "")
  | _ => false

/-- `ProfileService.validateProfileData` (src/unnamed/part_000:512-568).
Each check is guarded by the truthiness of the field, so an absent — or
zero, for the numeric fields — value skips its range check; the first
failing check wins. -/
def validateProfileData (data : PartialProfile) : Option ProfileError :=
  if strTruthy data.name ∧ ((data.name.getD "").trim.length < 2) then
    some { message := "Name must be at least 2 characters long",
           code := "INVALID_NAME", statusCode := 400 }
  else if strTruthy data.email ∧ ¬ emailRegexTest (data.email.getD "") then
    some { message := "Please provide a valid email address",
           code := "INVALID_EMAIL", statusCode := 400 }
  else if numTruthy (data.personalDetails.map (·.age)) ∧
      ((data.personalDetails.map (·.age)).getD 0 < 13 ∨
       120 < (data.personalDetails.map (·.age)).getD 0) then
    some { message := "Age must be between 13 and 120",
           code := "INVALID_AGE", statusCode := 400 }
  else if numTruthy (data.personalDetails.map (·.weight)) ∧
      ((data.personalDetails.map (·.weight)).getD 0 < 30 ∨
       300 < (data.personalDetails.map (·.weight)).getD 0) then
    some { message := "Weight must be between 30 and 300 kg",
           code := "INVALID_WEIGHT", statusCode := 400 }
  else if numTruthy (data.personalDetails.map (·.height)) ∧
      ((data.personalDetails.map (·.height)).getD 0 < 100 ∨
       250 < (data.personalDetails.map (·.height)).getD 0) then
    some { message := "Height must be between 100 and 250 cm",
           code := "INVALID_HEIGHT", statusCode := 400 }
  else if (data.planDuration ≠ none ∧ data.planDuration ≠ some 0) ∧
      (data.planDuration.getD 0 < 7 ∨ 365 < data.planDuration.getD 0) then
    some { message := "Plan duration must be between 7 and 365 days",
           code := "INVALID_DURATION", statusCode := 400 }
  else none

/-! ## Concrete sample data used by witnesses and counterexamples -/

/-- A valid baseline profile: male, 30 y, 80 kg, 180 cm, moderate
activity, maintenance goal, omnivore diet, 30-day plan. -/
def sampleProfile : UserProfile := {
  id := "user_1", name := "Sample", email := "sample@example.com", phoneNumber := ""
  personalDetails := { age := 30, gender := "male", weight := 80, height := 180,
                       activityLevel := "moderate" }
  healthGoals := { primary := "maintenance" }
  dietaryRestrictions := { dietType := "omnivore" }
  planDuration := 30 }

/-- The baseline profile with a weight-loss goal. -/
def wlProfile : UserProfile :=
  { sampleProfile with healthGoals := { primary := "weight_loss" } }

/-- A valid profile (male, 116 kg, 180 cm, 35 y, moderate, weight loss)
whose targets have a macro-calorie reconstruction error of 7. -/
def c7Profile : UserProfile :=
  { sampleProfile with
    personalDetails := { age := 35, gender := "male", weight := 116, height := 180,
                         activityLevel := "moderate" }
    healthGoals := { primary := "weight_loss" } }

/-- A valid profile (male, 100 kg, 148 cm, 50 y, sedentary, maintenance,
7-day plan) whose daily calorie target 2016 splits into slot shares that
round to a sum of 2017. -/
def genProfile : UserProfile :=
  { sampleProfile with
    personalDetails := { age := 50, gender := "male", weight := 100, height := 148,
                         activityLevel := "sedentary" }
    planDuration := 7 }

/-- The baseline profile with `planDuration := 0`. -/
def pZero : UserProfile := { sampleProfile with planDuration := 0 }

/-- The baseline profile with `planDuration := 400`. -/
def p400 : UserProfile := { sampleProfile with planDuration := 400 }

/-- The plain sum of the calories of the meals contained in a day:
breakfast + lunch + dinner + all snacks. -/
def dayMealCalorieSum (d : DayMeal) : ℚ :=
  d.meals.breakfast.nutrition.calories + d.meals.lunch.nutrition.calories +
    d.meals.dinner.nutrition.calories +
    (d.meals.snacks.map (fun m => m.nutrition.calories)).sum

/-- A placeholder day, only used as the default of total list indexing. -/
def dummyDay : DayMeal := {
  day := 0, date := 0,
  meals := { breakfast := generateMeal "breakfast" 0 false 0 0,
             lunch := generateMeal "lunch" 0 false 0 0,
             dinner := generateMeal "dinner" 0 false 0 0, snacks := [] },
  totalCalories := 0, completed := false }

/-- The first generated day of the fallback plan for `genProfile`. -/
def genDay0 : DayMeal :=
  (generateFallbackMeals genProfile (calculateNutritionTargets genProfile) 0 0).getD 0 dummyDay

/-- A one-slot meal used to build concrete days. -/
def mkSimpleMeal (id : String) (cal : ℚ) (completed : Bool) : Meal := {
  id := id, name := id, description := "", ingredients := [], instructions := [],
  nutrition := { calories := cal, protein := 10, carbs := 20, fat := 5, fiber := 2 },
  prepTime := 5, cookTime := 5, servings := 1, completed := completed }

/-- A concrete day (date 5) with breakfast, lunch and the single snack
already completed and dinner still open. -/
def c8Day : DayMeal := {
  day := 1, date := 5,
  meals := { breakfast := mkSimpleMeal "b" 500 true, lunch := mkSimpleMeal "l" 700 true,
             dinner := mkSimpleMeal "d" 600 false, snacks := [mkSimpleMeal "s" 200 true] },
  totalCalories := 2000, completed := false }

/-- A concrete one-day plan containing `c8Day`. -/
def c8Plan : DietPlan := {
  id := "p", userId := "u", name := "Plan", description := "", duration := 1,
  dailyCalories := 2000, macros := { protein := 100, carbs := 200, fat := 60 },
  meals := [c8Day], createdAt := 0, updatedAt := 0, isActive := true,
  progress := { completedDays := 0, totalDays := 1, adherenceRate := 0 } }

/-- The completion flags of a day in slot order: breakfast, lunch,
dinner, then the snacks. -/
def mealFlags (d : DayMeal) : List Bool :=
  d.meals.breakfast.completed :: d.meals.lunch.completed :: d.meals.dinner.completed ::
    d.meals.snacks.map (fun m => m.completed)

/-! ## Helper lemmas -/

unseal Rat.ofScientific

/-- The fallback generator produces exactly one day per plan day. -/
theorem generateFallbackMeals_length (profile : UserProfile) (targets : NutritionTargets)
    (today now : ℕ) :
    (generateFallbackMeals profile targets today now).length = profile.planDuration := by
  simp [generateFallbackMeals]

/-- The two services agree on the multiplier for each recognised
activity level. -/
theorem ai_tracking_multiplier_eq_of_known (l : String)
    (h : l ∈ ["sedentary", "light", "moderate", "active", "very_active"]) :
    aiActivityMultiplier l = trackingActivityFactor l := by
  fin_cases h <;> simp [aiActivityMultiplier, trackingActivityFactor]

/-! ## C1 — progress percentages at a zero target -/

/-- **C1** (code bug): `calculateNutritionProgress` performs the raw
division `current.protein / target.protein`; with `target.protein = 0`
and a positive current intake the protein percentage is `Infinity`, not
the 0 required by the documented zero-target convention. -/
theorem calculateNutritionProgress_zero_target_infinity :
    (calculateNutritionProgress
      { calories := 1500, protein := 50, carbs := 150, fat := 40, fiber := 20 }
      { calories := 2000, protein := 0, carbs := 250, fat := 70, fiber := 30 }).percentage.protein
        = JsNum.posInf ∧
    JsNum.posInf ≠ JsNum.fin 0 := by
  constructor
  · decide
  · decide

/-! ## C2 — nutrition score range -/

/-- **C2** (code bug): the fiber sub-score of `calculateNutritionScore`
is not capped below 100% — at fiber percentage 99 it is
`99 × 1.25 = 123.75` rather than `min 100 123.75 = 100`, and with all
other percentages at 100 the total score is 102, outside [0,100]. -/
theorem calculateNutritionScore_exceeds_100 :
    calculateNutritionScore
      { calories := 100, protein := 100, carbs := 100, fat := 100, fiber := 99 } = 102 ∧
    ¬ calculateNutritionScore
      { calories := 100, protein := 100, carbs := 100, fat := 100, fiber := 99 } ≤ 100 := by
  have h : calculateNutritionScore
      { calories := 100, protein := 100, carbs := 100, fat := 100, fiber := 99 } = 102 := by
    norm_num [calculateNutritionScore, macroSubScore, round_eq]
  refine ⟨h, by rw [h]; decide⟩

/-! ## C3 — plan-duration validation -/

/-- **C3** (code bug): a plan duration of 0 slips through
`validateProfileData` (the range check is guarded by JS truthiness, and 0
is falsy), and diet-plan generation performs no duration check of its
own: with `planDuration = 0` it returns an empty plan, and with
`planDuration = 400` — although profile validation would reject it —
generation still produces a 400-day plan. -/
theorem planDuration_validation_gap :
    validateProfileData { planDuration := some 0 } = none ∧
    (generateFallbackDietPlan pZero 0 0).meals = [] ∧
    validateProfileData { planDuration := some 400 } =
      some { message := "Plan duration must be between 7 and 365 days",
             code := "INVALID_DURATION", statusCode := 400 } ∧
    (generateFallbackDietPlan p400 0 0).meals.length = 400 := by
  refine ⟨by decide, by decide, by decide, ?_⟩
  show (generateFallbackMeals p400 (calculateNutritionTargets p400) 0 0).length = 400
  rw [generateFallbackMeals_length]
  rfl

/-! ## C6 — activity multiplier defaults -/

/-- **C6** counterexample: for an unrecognised activity level the
tracking service falls back to 1.2 (its sedentary initialiser), not to
the claimed uniform default 1.55. -/
theorem trackingActivityFactor_unknown_not_moderate :
    trackingActivityFactor "superhuman" = 1.2 ∧
    aiActivityMultiplier "superhuman" = 1.55 ∧
    (1.2 : ℚ) ≠ 1.55 := by
  refine ⟨by simp [trackingActivityFactor], by simp [aiActivityMultiplier], by norm_num⟩

/-- **C6** (amended): both services use the fixed lookup sedentary 1.2,
light 1.375, moderate 1.55, active 1.725, very_active 1.9; for any other
level neither errors, but the AI service defaults to 1.55 while the
tracking service defaults to 1.2. -/
theorem activityMultiplier_table_and_defaults :
    (aiActivityMultiplier "sedentary" = 1.2 ∧ trackingActivityFactor "sedentary" = 1.2) ∧
    (aiActivityMultiplier "light" = 1.375 ∧ trackingActivityFactor "light" = 1.375) ∧
    (aiActivityMultiplier "moderate" = 1.55 ∧ trackingActivityFactor "moderate" = 1.55) ∧
    (aiActivityMultiplier "active" = 1.725 ∧ trackingActivityFactor "active" = 1.725) ∧
    (aiActivityMultiplier "very_active" = 1.9 ∧ trackingActivityFactor "very_active" = 1.9) ∧
    (∀ l : String, l ≠ "sedentary" → l ≠ "light" → l ≠ "moderate" → l ≠ "active" →
      l ≠ "very_active" → aiActivityMultiplier l = 1.55 ∧ trackingActivityFactor l = 1.2) := by
  refine ⟨⟨by simp [aiActivityMultiplier], by simp [trackingActivityFactor]⟩,
    ⟨by simp [aiActivityMultiplier], by simp [trackingActivityFactor]⟩,
    ⟨by simp [aiActivityMultiplier], by simp [trackingActivityFactor]⟩,
    ⟨by simp [aiActivityMultiplier], by simp [trackingActivityFactor]⟩,
    ⟨by simp [aiActivityMultiplier], by simp [trackingActivityFactor]⟩, ?_⟩
  intro l h1 h2 h3 h4 h5
  constructor
  · simp [aiActivityMultiplier, h1, h2, h3, h4, h5]
  · simp [trackingActivityFactor, h2, h3, h4, h5]

/-- **C6** witness: the default clause evaluated at the concrete unknown
level "alien". -/
theorem activityMultiplier_defaults_witness :
    aiActivityMultiplier "alien" = 1.55 ∧ trackingActivityFactor "alien" = 1.2 :=
  activityMultiplier_table_and_defaults.2.2.2.2.2 "alien"
    (by decide) (by decide) (by decide) (by decide) (by decide)

/-! ## C5 — goal-adjustment policy across the two services -/

/-- **C5** counterexample: for a weight-loss profile the plan generator
subtracts 500 kcal (2259) while the nutrition tracker applies no
adjustment at all (2759) — its multiplicative-deficit branch reads the
nonexistent `healthGoals.primaryGoal` field and never fires — so the two
daily-calorie targets differ. -/
theorem goalAdjustment_policies_diverge :
    (calculateNutritionTargets wlProfile).dailyCalories = 2259 ∧
    (calculateDailyNutritionGoals wlProfile).calories = 2759 ∧
    (2259 : ℚ) ≠ 2759 := by
  refine ⟨?_, ?_, by norm_num⟩
  · norm_num +decide [calculateNutritionTargets, wlProfile, sampleProfile, aiActivityMultiplier,
      round_eq]
  · norm_num +decide [calculateDailyNutritionGoals, wlProfile, sampleProfile,
      trackingActivityFactor, trackingPrimaryGoal, round_eq]

/-- **C5** (amended): the two calorie targets agree exactly on the goals
with no adjustment — for every profile with a recognised activity level
and a maintenance or general_health goal, the generator and the tracker
return the same rounded TDEE; for weight_loss/muscle_gain they diverge
(−500/+300 versus no adjustment). -/
theorem calorieTargets_agree_without_goal_adjustment (p : UserProfile)
    (hact : p.personalDetails.activityLevel ∈
      ["sedentary", "light", "moderate", "active", "very_active"])
    (hgoal : p.healthGoals.primary = "maintenance" ∨ p.healthGoals.primary = "general_health") :
    (calculateNutritionTargets p).dailyCalories = (calculateDailyNutritionGoals p).calories := by
  have hmult := ai_tracking_multiplier_eq_of_known _ hact
  have hnw : ¬ p.healthGoals.primary = "weight_loss" := by
    rcases hgoal with h | h <;> simp [h]
  have hnm : ¬ p.healthGoals.primary = "muscle_gain" := by
    rcases hgoal with h | h <;> simp [h]
  simp only [calculateNutritionTargets, calculateDailyNutritionGoals, trackingPrimaryGoal]
  rw [if_neg hnw, if_neg hnm, hmult]
  simp

/-- **C5** witness: on the baseline maintenance profile both services
yield the same daily calories. -/
theorem calorieTargets_agree_witness :
    (calculateNutritionTargets sampleProfile).dailyCalories =
      (calculateDailyNutritionGoals sampleProfile).calories :=
  calorieTargets_agree_without_goal_adjustment sampleProfile (by decide) (Or.inl rfl)

/-! ## C7 — macro-to-calorie reconstruction tolerance -/

/-- **C7** counterexample: on the valid profile `c7Profile` the targets
are 2778 kcal with 174 g protein, 313 g carbs and 93 g fat, and
`174·4 + 313·4 + 93·9 − 2778 = 7`, outside the claimed ±3 tolerance. -/
theorem macroCalorie_tolerance_exceeded :
    calculateNutritionTargets c7Profile =
      { dailyCalories := 2778, protein := 174, carbs := 313, fat := 93 } ∧
    ¬ |(calculateNutritionTargets c7Profile).protein * 4 +
        (calculateNutritionTargets c7Profile).carbs * 4 +
        (calculateNutritionTargets c7Profile).fat * 9 -
        (calculateNutritionTargets c7Profile).dailyCalories| ≤ 3 := by
  have h : calculateNutritionTargets c7Profile =
      { dailyCalories := 2778, protein := 174, carbs := 313, fat := 93 } := by
    norm_num +decide [calculateNutritionTargets, c7Profile, sampleProfile, aiActivityMultiplier,
      round_eq, NutritionTargets.mk.injEq]
  refine ⟨h, ?_⟩
  rw [h]
  norm_num

/-- Rounding each macro independently loses at most half a gram per
macro, so reconstructing calories from the rounded grams deviates by at
most `4·½ + 4·½ + 9·½ + ½ = 9` whenever the three ratios sum to 1. -/
theorem round_macro_reconstruction_bound (dc p c f : ℚ) (hsum : p + c + f = 1) :
    |((round (dc * p / 4) : ℤ) : ℚ) * 4 + ((round (dc * c / 4) : ℤ) : ℚ) * 4 +
      ((round (dc * f / 9) : ℤ) : ℚ) * 9 - ((round dc : ℤ) : ℚ)| ≤ 9 := by
  have h1 := abs_sub_round (dc * p / 4)
  have h2 := abs_sub_round (dc * c / 4)
  have h3 := abs_sub_round (dc * f / 9)
  have h0 := abs_sub_round dc
  have hd : dc * p + dc * c + dc * f = dc := by
    rw [← mul_add, ← mul_add, hsum, mul_one]
  rw [abs_le] at h1 h2 h3 h0 ⊢
  constructor <;> linarith [h1.1, h1.2, h2.1, h2.2, h3.1, h3.2, h0.1, h0.2]

/-- **C7** (amended): for every profile the reconstructed calories
`protein·4 + carbs·4 + fat·9` lie within ±9 of `dailyCalories` — every
macro-ratio table of the generator sums to 1, and the worst case of the
four independent roundings is 9, not 3. -/
theorem nutritionTargets_macro_calorie_bound (p : UserProfile) :
    |(calculateNutritionTargets p).protein * 4 + (calculateNutritionTargets p).carbs * 4 +
      (calculateNutritionTargets p).fat * 9 - (calculateNutritionTargets p).dailyCalories| ≤ 9 := by
  simp only [calculateNutritionTargets]
  apply round_macro_reconstruction_bound
  by_cases h1 : p.dietaryRestrictions.dietType = "keto" <;>
  by_cases h2 : p.dietaryRestrictions.dietType = "paleo" <;>
  by_cases h3 : p.dietaryRestrictions.dietType = "vegan" ∨
    p.dietaryRestrictions.dietType = "vegetarian" <;>
  simp [h1, h2, h3] <;> norm_num

/-! ## C4 — day totals versus the sum of meal calories -/

/-- **C4** counterexample: the first generated day of the fallback plan
for `genProfile` has `totalCalories = 2016` (the daily target, set
directly) while its meals' calories sum to 2017 — the rounded
25/35/30/10 shares of 2016 sum to 2017 — so the claimed equality fails
on a freshly generated day. -/
theorem generated_day_total_mismatch :
    ((generateFallbackDietPlan genProfile 0 0).meals.head?.map fun d =>
      (d.totalCalories, dayMealCalorieSum d)) = some (2016, 2017) ∧ (2016 : ℚ) ≠ 2017 := by
  refine ⟨?_, by norm_num⟩
  norm_num +decide [generateFallbackDietPlan, generateFallbackMeals, calculateNutritionTargets,
    genProfile, sampleProfile, aiActivityMultiplier, generateMeal, dayMealCalorieSum,
    List.range', round_eq]

/-- Folding `addNutritionData` over a list of meals adds up exactly the
meals' calorie fields. -/
theorem foldl_addNutrition_calories (l : List Meal) (acc : NutritionData) :
    (l.foldl (fun a snack => addNutritionData a (calculateMealNutrition snack)) acc).calories =
      acc.calories + (l.map (fun m => m.nutrition.calories)).sum := by
  induction l generalizing acc with
  | nil => simp
  | cons m t ih =>
      rw [List.foldl_cons, ih]
      simp only [addNutritionData, calculateMealNutrition, List.map_cons, List.sum_cons]
      ring

/-- Calorie projection of `addNutritionData`. -/
theorem addNutritionData_calories (a b : NutritionData) :
    (addNutritionData a b).calories = a.calories + b.calories := rfl

/-- Calorie projection of `calculateMealNutrition`. -/
theorem calculateMealNutrition_calories (m : Meal) :
    (calculateMealNutrition m).calories = m.nutrition.calories := rfl

/-- Calorie projection of the empty nutrition record. -/
theorem createEmptyNutritionData_calories : createEmptyNutritionData.calories = 0 := rfl

/-- The aggregator's day-nutrition calories equal the plain sum of the
contained meals' calories. -/
theorem calculateDayNutrition_calories (d : DayMeal) :
    (calculateDayNutrition d).calories = dayMealCalorieSum d := by
  simp only [calculateDayNutrition, foldl_addNutrition_calories, addNutritionData_calories,
    calculateMealNutrition_calories, createEmptyNutritionData_calories, dayMealCalorieSum]
  ring

/-- **C4** (amended): every freshly generated day carries
`totalCalories = targets.dailyCalories`, its meals' calories sum to
within ±2 of that figure (not always exactly to it), the aggregator's
day total coincides with the plain meal sum, and
`recalculateDayMealTotals` re-establishes `totalCalories` as the rounded
day-nutrition sum. -/
theorem generated_day_calorie_invariants (profile : UserProfile) (targets : NutritionTargets)
    (today now : ℕ) (d : DayMeal)
    (hd : d ∈ generateFallbackMeals profile targets today now) :
    d.totalCalories = targets.dailyCalories ∧
    |dayMealCalorieSum d - targets.dailyCalories| ≤ 2 ∧
    (calculateDayNutrition d).calories = dayMealCalorieSum d ∧
    (recalculateDayMealTotals d).totalCalories =
      ((round (calculateDayNutrition d).calories : ℤ) : ℚ) := by
  rw [generateFallbackMeals, List.mem_map] at hd
  obtain ⟨day, hday, rfl⟩ := hd
  refine ⟨rfl, ?_, calculateDayNutrition_calories _, rfl⟩
  have h1 := abs_sub_round (targets.dailyCalories * 0.25)
  have h2 := abs_sub_round (targets.dailyCalories * 0.35)
  have h3 := abs_sub_round (targets.dailyCalories * 0.30)
  have h4 := abs_sub_round (targets.dailyCalories * 0.10)
  have hsum : targets.dailyCalories * 0.25 + targets.dailyCalories * 0.35 +
      targets.dailyCalories * 0.30 + targets.dailyCalories * 0.10 = targets.dailyCalories := by
    norm_num
    ring
  simp only [dayMealCalorieSum, generateMeal, List.map_cons, List.map_nil, List.sum_cons,
    List.sum_nil, add_zero]
  rw [abs_le] at h1 h2 h3 h4 ⊢
  constructor <;> linarith [h1.1, h1.2, h2.1, h2.2, h3.1, h3.2, h4.1, h4.2]

/-- **C4** witness: the invariants evaluated on the first generated day
of the fallback plan for `genProfile`. -/
theorem generated_day_calorie_invariants_witness :
    genDay0.totalCalories = (calculateNutritionTargets genProfile).dailyCalories ∧
    |dayMealCalorieSum genDay0 - (calculateNutritionTargets genProfile).dailyCalories| ≤ 2 ∧
    (calculateDayNutrition genDay0).calories = dayMealCalorieSum genDay0 ∧
    (recalculateDayMealTotals genDay0).totalCalories =
      ((round (calculateDayNutrition genDay0).calories : ℤ) : ℚ) := by
  apply generated_day_calorie_invariants genProfile (calculateNutritionTargets genProfile) 0 0
  have hlen : 0 <
      (generateFallbackMeals genProfile (calculateNutritionTargets genProfile) 0 0).length := by
    rw [generateFallbackMeals_length]
    norm_num [genProfile, sampleProfile]
  rw [genDay0, List.getD_eq_getElem _ dummyDay hlen]
  exact List.getElem_mem hlen

/-! ## C9 — algebra of nutrition summation -/

/-- **C9**: `addNutritionData` is commutative and associative on all
`NutritionData` values, absent optional fields counting as zero. -/
theorem addNutritionData_comm_assoc (a b c : NutritionData) :
    addNutritionData a b = addNutritionData b a ∧
    addNutritionData (addNutritionData a b) c = addNutritionData a (addNutritionData b c) := by
  constructor
  · simp only [addNutritionData, NutritionData.mk.injEq, Option.some.injEq, Vitamins.mk.injEq,
      Minerals.mk.injEq]
    repeat' apply And.intro
    all_goals ring
  · simp only [addNutritionData, vget, mget, oget, Option.some_bind, Option.getD_some,
      NutritionData.mk.injEq, Option.some.injEq, Vitamins.mk.injEq, Minerals.mk.injEq]
    repeat' apply And.intro
    all_goals ring

/-! ## C10 — freshly generated plans start at zero progress -/

/-- Every day produced by the fallback generator starts with every
completion flag cleared. -/
theorem generateFallbackMeals_fresh (profile : UserProfile) (targets : NutritionTargets)
    (today now : ℕ) :
    ∀ d ∈ generateFallbackMeals profile targets today now,
      d.completed = false ∧ d.meals.breakfast.completed = false ∧
      d.meals.lunch.completed = false ∧ d.meals.dinner.completed = false ∧
      ∀ m ∈ d.meals.snacks, m.completed = false := by
  intro d hd
  rw [generateFallbackMeals, List.mem_map] at hd
  obtain ⟨day, _, rfl⟩ := hd
  refine ⟨rfl, rfl, rfl, rfl, ?_⟩
  intro m hm
  simp only [List.mem_singleton] at hm
  rw [hm]
  rfl

/-- **C10**: both generation paths produce plans that are active, carry
progress `{completedDays 0, totalDays planDuration, adherenceRate 0}`,
and contain only days and meals with `completed = false`. -/
theorem generated_plan_zero_progress (profile : UserProfile) (today now : ℕ) :
    ((generateDietPlan profile today now).isActive = true ∧
      (generateDietPlan profile today now).progress =
        { completedDays := 0, totalDays := profile.planDuration, adherenceRate := 0 } ∧
      ∀ d ∈ (generateDietPlan profile today now).meals,
        d.completed = false ∧ d.meals.breakfast.completed = false ∧
        d.meals.lunch.completed = false ∧ d.meals.dinner.completed = false ∧
        ∀ m ∈ d.meals.snacks, m.completed = false) ∧
    ((generateFallbackDietPlan profile today now).isActive = true ∧
      (generateFallbackDietPlan profile today now).progress =
        { completedDays := 0, totalDays := profile.planDuration, adherenceRate := 0 } ∧
      ∀ d ∈ (generateFallbackDietPlan profile today now).meals,
        d.completed = false ∧ d.meals.breakfast.completed = false ∧
        d.meals.lunch.completed = false ∧ d.meals.dinner.completed = false ∧
        ∀ m ∈ d.meals.snacks, m.completed = false) :=
  ⟨⟨rfl, rfl, generateFallbackMeals_fresh profile _ today now⟩,
   ⟨rfl, rfl, generateFallbackMeals_fresh profile _ today now⟩⟩

/-- **C10** witness: the first day of the generated plan for
`genProfile` starts uncompleted, in an active plan. -/
theorem generated_plan_zero_progress_witness :
    genDay0.completed = false ∧ (generateDietPlan genProfile 0 0).isActive = true := by
  have h := generated_plan_zero_progress genProfile 0 0
  refine ⟨(h.1.2.2 genDay0 ?_).1, h.1.1⟩
  show genDay0 ∈ (generateDietPlan genProfile 0 0).meals
  have hlen : 0 < ((generateDietPlan genProfile 0 0).meals).length := by
    show 0 <
      (generateFallbackMeals genProfile (calculateNutritionTargets genProfile) 0 0).length
    rw [generateFallbackMeals_length]
    norm_num [genProfile, sampleProfile]
  rw [show genDay0 = ((generateDietPlan genProfile 0 0).meals).getD 0 dummyDay from rfl,
    List.getD_eq_getElem _ dummyDay hlen]
  exact List.getElem_mem hlen

/-! ## C8 — meal completion, day completion and adherence -/

/-- `round` of a value in `[0, 100]` stays in `[0, 100]`. -/
theorem round_bounds_0_100 (q : ℚ) (h0 : 0 ≤ q) (h1 : q ≤ 100) :
    0 ≤ round q ∧ round q ≤ 100 := by
  rw [round_eq]
  constructor
  · have h2 : (0:ℤ) = ⌊(1/2 : ℚ)⌋ := by norm_num
    rw [h2]
    exact Int.floor_mono (by linarith)
  · have h2 : (100:ℤ) = ⌊(201/2 : ℚ)⌋ := by norm_num
    rw [h2]
    exact Int.floor_mono (by linarith)

/-- Marking one snack complete only raises completion flags. -/
theorem setSnackCompleted_flags_mono (s : List Meal) (i : ℕ) :
    List.Forall₂ (fun a b : Bool => a = true → b = true)
      (s.map fun m => m.completed) ((setSnackCompleted s i).map fun m => m.completed) := by
  induction s generalizing i with
  | nil => simp [setSnackCompleted]
  | cons m t ih =>
      cases i with
      | zero =>
          simp only [setSnackCompleted, List.get?_cons_zero, List.set_cons_zero, List.map_cons]
          exact List.Forall₂.cons (fun _ => rfl) (List.forall₂_same.2 fun x _ h => h)
      | succ n =>
          simp only [setSnackCompleted, List.get?_cons_succ, List.set_cons_succ]
          cases hg : t.get? n with
          | none =>
              simp only [List.map_cons]
              exact List.Forall₂.cons (fun h => h) (List.forall₂_same.2 fun x _ h => h)
          | some x =>
              simp only [List.map_cons]
              refine List.Forall₂.cons (fun h => h) ?_
              have hih := ih n
              rw [setSnackCompleted, hg] at hih
              exact hih

/-- The slot-marking step only raises completion flags. -/
theorem markMeal_flags_mono (d : DayMeal) (mealType : String) (snackIndex : Option ℕ) :
    List.Forall₂ (fun a b : Bool => a = true → b = true)
      (mealFlags d) (mealFlags (markMeal d mealType snackIndex)) := by
  have hrefl : ∀ l : List Bool, List.Forall₂ (fun a b : Bool => a = true → b = true) l l :=
    fun l => List.forall₂_same.2 fun x _ h => h
  rw [markMeal.eq_def]
  split
  · split
    · simp only [mealFlags]
      exact List.Forall₂.cons (fun h => h) (List.Forall₂.cons (fun h => h)
        (List.Forall₂.cons (fun h => h) (setSnackCompleted_flags_mono _ _)))
    · exact hrefl _
  · split
    · simp only [mealFlags]
      exact List.Forall₂.cons (fun _ => rfl) (hrefl _)
    · split
      · simp only [mealFlags]
        exact List.Forall₂.cons (fun h => h) (List.Forall₂.cons (fun _ => rfl) (hrefl _))
      · split
        · simp only [mealFlags]
          exact List.Forall₂.cons (fun h => h) (List.Forall₂.cons (fun h => h)
            (List.Forall₂.cons (fun _ => rfl) (hrefl _)))
        · exact hrefl _

/-- The slot-marking step never touches the day-level completion flag. -/
theorem markMeal_completed_eq (d : DayMeal) (mealType : String) (snackIndex : Option ℕ) :
    (markMeal d mealType snackIndex).completed = d.completed := by
  rw [markMeal.eq_def]
  split
  · split <;> rfl
  · split
    · rfl
    · split
      · rfl
      · split <;> rfl

/-- **C8**: a meal-completion event only raises completion flags; the
updated day is completed exactly when breakfast, lunch, dinner and every
snack are completed (given it was not yet completed); afterwards
`progress.completedDays` counts the completed days of the plan and
`adherenceRate = round(completedDays / totalDays × 100)` lies in
[0, 100] — for well-formed plans whose meal-list length and
`progress.totalDays` both equal `duration > 0`. -/
theorem mealCompletion_forward_and_adherence (plan : DietPlan) (day : DayMeal)
    (selectedDate : ℕ) (mealType : String) (snackIndex : Option ℕ)
    (hlen : plan.meals.length = plan.duration)
    (hpos : 0 < plan.duration)
    (htot : plan.progress.totalDays = plan.duration)
    (hfresh : day.completed = false) :
    List.Forall₂ (fun a b : Bool => a = true → b = true) (mealFlags day)
      (mealFlags (handleMealComplete plan day selectedDate mealType snackIndex).2) ∧
    ((handleMealComplete plan day selectedDate mealType snackIndex).2.completed = true ↔
      allMealsCompleted (handleMealComplete plan day selectedDate mealType snackIndex).2
        = true) ∧
    (handleMealComplete plan day selectedDate mealType snackIndex).1.progress.completedDays =
      ((handleMealComplete plan day selectedDate mealType snackIndex).1.meals.filter
        (fun m => m.completed)).length ∧
    (handleMealComplete plan day selectedDate mealType snackIndex).1.progress.adherenceRate =
      round ((((handleMealComplete plan day selectedDate mealType
          snackIndex).1.progress.completedDays : ℚ) /
        ((handleMealComplete plan day selectedDate mealType
          snackIndex).1.progress.totalDays : ℚ)) * 100) ∧
    0 ≤ (handleMealComplete plan day selectedDate mealType snackIndex).1.progress.adherenceRate ∧
    (handleMealComplete plan day selectedDate mealType snackIndex).1.progress.adherenceRate
      ≤ 100 := by
  have h2eq : (handleMealComplete plan day selectedDate mealType snackIndex).2 =
      (if allMealsCompleted (recalculateDayMealTotals (markMeal day mealType snackIndex))
       then { recalculateDayMealTotals (markMeal day mealType snackIndex) with completed := true }
       else recalculateDayMealTotals (markMeal day mealType snackIndex)) := rfl
  have hflags : mealFlags (handleMealComplete plan day selectedDate mealType snackIndex).2 =
      mealFlags (markMeal day mealType snackIndex) := by
    rw [h2eq]
    split <;> rfl
  have hq0 : (0:ℚ) ≤ (((handleMealComplete plan day selectedDate mealType
      snackIndex).1.progress.completedDays : ℚ) / (plan.duration : ℚ)) * 100 := by
    positivity
  have hgen : ∀ g : DayMeal → DayMeal,
      ((plan.meals.map g).filter (fun m => m.completed)).length ≤ plan.duration := by
    intro g
    calc ((plan.meals.map g).filter (fun m => m.completed)).length
        ≤ (plan.meals.map g).length := List.length_filter_le _ _
      _ = plan.meals.length := List.length_map _ _
      _ = plan.duration := hlen
  have hcount : (handleMealComplete plan day selectedDate mealType
      snackIndex).1.progress.completedDays ≤ plan.duration := hgen _
  have hq1 : (((handleMealComplete plan day selectedDate mealType
      snackIndex).1.progress.completedDays : ℚ) / (plan.duration : ℚ)) * 100 ≤ 100 := by
    have hdpos : (0:ℚ) < (plan.duration : ℚ) := by exact_mod_cast hpos
    have hlecast : ((handleMealComplete plan day selectedDate mealType
        snackIndex).1.progress.completedDays : ℚ) ≤ (plan.duration : ℚ) := by
      exact_mod_cast hcount
    rw [div_mul_eq_mul_div, div_le_iff₀ hdpos]
    nlinarith
  have hbounds := round_bounds_0_100 _ hq0 hq1
  refine ⟨?_, ?_, rfl, ?_, hbounds.1, hbounds.2⟩
  · rw [hflags]
    exact markMeal_flags_mono day mealType snackIndex
  · rw [h2eq]
    by_cases hall : allMealsCompleted (recalculateDayMealTotals
        (markMeal day mealType snackIndex)) = true
    · rw [if_pos hall]
      exact ⟨fun _ => hall, fun _ => rfl⟩
    · rw [if_neg hall]
      constructor
      · intro hc
        rw [show (recalculateDayMealTotals (markMeal day mealType snackIndex)).completed =
            (markMeal day mealType snackIndex).completed from rfl,
          markMeal_completed_eq, hfresh] at hc
        exact absurd hc (by simp)
      · intro hc
        exact absurd hc hall
  · have htd : (handleMealComplete plan day selectedDate mealType
        snackIndex).1.progress.totalDays = plan.progress.totalDays := rfl
    rw [htd, htot]
    rfl

/-- **C8** witness: completing the last open slot (dinner) of the
one-day plan `c8Plan` completes the day, with adherence within
[0, 100]. -/
theorem mealCompletion_witness :
    (handleMealComplete c8Plan c8Day 5 "dinner" none).2.completed = true ∧
    0 ≤ (handleMealComplete c8Plan c8Day 5 "dinner" none).1.progress.adherenceRate ∧
    (handleMealComplete c8Plan c8Day 5 "dinner" none).1.progress.adherenceRate ≤ 100 := by
  have h := mealCompletion_forward_and_adherence c8Plan c8Day 5 "dinner" none rfl
    (by decide) rfl rfl
  exact ⟨h.2.1.2 (by decide), h.2.2.2.2.1, h.2.2.2.2.2⟩
